import Mathlib

/-!
Verification of the greeting-bot ENS registration orchestrator.

This file shallowly embeds the orchestration core of the repository:
the funding analyzer (`recommendWallet`, src/utils/wallets.ts), the
required-amount computation (`calculateRequiredMainnetETH`,
src/services/bridge.ts), the commit-reveal registration saga, the
correlation stores (JS `Map`s modelled as association lists), and the
response dispatcher (`bot.onInteractionResponse` in src/index.ts).

Conventions used throughout:
* `bigint` wei amounts become `Nat` (they are non-negative throughout
  the source);
* JS `Map<string, T>` becomes an association list `List (String × T)`
  with `mapGet` / `mapSet` / `mapDelete` mirroring `get` / `set` /
  `delete` (keys are unique by construction of `mapSet`);
* asynchronous side effects (`handler.sendMessage`,
  `handler.sendInteractionRequest`, `console.error`, `setTimeout`)
  become an explicit `Effect` list, in emission order;
* external I/O (RPC balance reads, cost recomputation, random secret
  generation, `Date.now()`) is passed in as explicit oracle data; a
  throwing external call is an `Option` returning `none`;
* message formatting is explicitly out of scope for the spec (spec
  section 1), so `sendMessage` payloads carry the distinguishing head
  line of each source message rather than the full markdown body;
* `encodeFunctionData` / `makeCommitment` are out-of-scope library
  primitives; calldata is kept symbolic in the `TxData` type so that
  the arguments of the `register` call (in particular the secret)
  remain observable.
-/

/-! ## JS string primitives

`String.prototype.startsWith` and single-occurrence
`String.prototype.replace` (with a string pattern, JS replaces only the
first occurrence), modelled on the character lists underlying `String`.
-/

/-- Source `listReplaceFirst s pat rep` replaces the first occurrence of `pat`
in `s` with `rep`; if `pat` does not occur, `s` is returned unchanged.
This is the behavior of JS `String.prototype.replace` with a string
pattern. -/
def listReplaceFirst : List Char → List Char → List Char → List Char
  | s, pat, rep =>
    if pat.isPrefixOf s then rep ++ s.drop pat.length
    else
      match s with
      | [] => []
      | c :: rest => c :: listReplaceFirst rest pat rep

/-- JS `s.replace(pat, rep)` for a string pattern: first occurrence only. -/
def jsReplaceFirst (s pat rep : String) : String :=
  ⟨listReplaceFirst s.data pat.data rep.data⟩

/-- JS `s.startsWith(pre)`. -/
def jsStartsWith (s pre : String) : Bool :=
  pre.data.isPrefixOf s.data

/-! ## Association-list model of JS `Map` -/

/-- JS `map.get(k)`: the value stored under `k`, if present (keys are
unique by construction of `mapSet`, so first match is the match). -/
def mapGet {α : Type} : List (String × α) → String → Option α
  | [], _ => none
  | (k', v) :: rest, k => if k' == k then some v else mapGet rest k

/-- JS `map.set(k, v)`: overwrite the entry for `k` if present,
otherwise append it. -/
def mapSet {α : Type} : List (String × α) → String → α → List (String × α)
  | [], k, v => [(k, v)]
  | (k', v') :: rest, k, v =>
    if k' == k then (k, v) :: rest else (k', v') :: mapSet rest k v

/-- JS `map.delete(k)`. -/
def mapDelete {α : Type} : List (String × α) → String → List (String × α)
  | [], _ => []
  | (k', v) :: rest, k =>
    if k' == k then mapDelete rest k else (k', v) :: mapDelete rest k

/-! ## Constants

The repository's `src/constants` directory is not part of the provided
sources; the values below are fixed by the code and spec that use them. -/

/-- Modelled from the spec: `REGISTRATION.MIN_COMMITMENT_AGE`
(src/constants/ens.ts is absent from the sources). The spec mandates a
delay "equal to the registry's minimum commitment age" and every
user-facing message in src/index.ts names it as 60 seconds. -/
def REGISTRATION_MIN_COMMITMENT_AGE : Nat := 60

/-- Source `TIME.SECONDS_PER_YEAR`: the divisor `31557600n` appearing at the
cost recomputation sites in src/index.ts. -/
def SECONDS_PER_YEAR : Nat := 31557600

/-- Source `CHAIN_IDS.MAINNET`. -/
def CHAIN_MAINNET : Nat := 1

/-- Source `CHAIN_IDS.BASE` (the literal `"8453"` in src/index.ts). -/
def CHAIN_BASE : Nat := 8453

/-! ## Funding analyzer (src/utils/wallets.ts) -/

/-- Source `WalletInfo` (src/types/wallet.ts): address, account-kind flag and
the two per-chain balances in wei. -/
structure WalletInfo where
  address : String
  isEOA : Bool
  mainnet : Nat
  base : Nat
deriving Repr, DecidableEq

/-- The three funding paths of `RecommendedWallet.path`
(src/types/wallet.ts: `"A" | "B" | "C"`). -/
inductive FlowPath where
  | A
  | B
  | C
deriving Repr, DecidableEq

/-- Source `RecommendedWallet` (src/types/wallet.ts). -/
structure RecommendedWallet where
  address : String
  reason : String
  path : FlowPath
  estimatedCost : Nat
deriving Repr, DecidableEq

/-- Decimal ETH rendering of a wei amount. viem `formatEther` is an
out-of-scope library primitive (spec section 1); it is modelled as
numeral printing, which preserves injectivity and is never inspected by
any claim. -/
def formatEther (wei : Nat) : String :=
  toString wei

/-- Source `recommendWallet` (src/utils/wallets.ts lines 111-170): pick the
best wallet, trying Path A (direct Mainnet funds), then Path B (bridge
from Base), then Path C (smart account drains into the first EOA). -/
def recommendWallet (walletsWithBalances : List WalletInfo)
    (requiredMainnetAmount : Nat) (bridgeFee : Nat) :
    Option RecommendedWallet :=
  let eoaWallets := walletsWithBalances.filter (fun w => w.isEOA)
  if eoaWallets.length = 0 then
    none
  else
    match eoaWallets.find? (fun w => requiredMainnetAmount ≤ w.mainnet) with
    | some mainnetReady =>
      some
        { address := mainnetReady.address
          reason := "Has " ++ formatEther mainnetReady.mainnet ++
            " ETH on Mainnet (sufficient for direct registration)"
          path := FlowPath.A
          estimatedCost := requiredMainnetAmount }
    | none =>
      let totalNeededOnBase := requiredMainnetAmount + bridgeFee
      match eoaWallets.find? (fun w => totalNeededOnBase ≤ w.base) with
      | some baseReady =>
        some
          { address := baseReady.address
            reason := "Has " ++ formatEther baseReady.base ++
              " ETH on Base (sufficient for bridging to Mainnet)"
            path := FlowPath.B
            estimatedCost := totalNeededOnBase }
      | none =>
        let smartAccounts := walletsWithBalances.filter (fun w => !w.isEOA)
        match smartAccounts.find? (fun w => totalNeededOnBase ≤ w.base) with
        | some smartAccountWithFunds =>
          match eoaWallets with
          | firstEOA :: _ =>
            some
              { address := firstEOA.address
                reason := "Your smart account has " ++
                  formatEther smartAccountWithFunds.base ++
                  " ETH on Base. Will transfer to this EOA, then bridge to Mainnet."
                path := FlowPath.C
                estimatedCost := totalNeededOnBase }
          | [] => none
        | none => none

/-! ## Required-amount computation (src/services/bridge.ts) -/

/-- Source `calculateRequiredMainnetETH` (src/services/bridge.ts lines
221-233): registration cost plus a fixed 0.01 ETH gas reserve, inflated
by `gasBufferPercentage` percent (bigint division truncates, as `Nat`
division does). -/
def calculateRequiredMainnetETH (registrationCostWei : Nat)
    (gasBufferPercentage : Nat) : Nat :=
  let estimatedGas : Nat := 10 ^ 16
  let total := registrationCostWei + estimatedGas
  let buffer := total * gasBufferPercentage / 100
  total + buffer

/-! ## Saga state records (src/types) -/

/-- Source `CommitmentState` (src/types/ens.ts lines 79-90). -/
structure CommitmentState where
  userId : String
  channelId : String
  domain : String
  label : String
  commitment : String
  secret : String
  owner : String
  duration : Nat
  timestamp : Nat
  commitTxHash : Option String := none
deriving Repr, DecidableEq

/-- Source `RegistrationParams` (src/types/ens.ts lines 92-101). -/
structure RegistrationParams where
  label : String
  owner : String
  duration : Nat
  secret : String
  resolver : String
  data : List String
  reverseRecord : Bool
  ownerControlledFuses : Nat
deriving Repr, DecidableEq

/-- Modelled from the spec: the `BridgeState` status enum
(src/types/bridge.ts is absent from the sources; the spec fixes the
enumeration as pending, submitted, filled, expired, and the only use
site, src/index.ts line 1612, stores the literal `"pending"`). -/
inductive BridgeStatus where
  | pending
  | submitted
  | filled
  | expired
deriving Repr, DecidableEq

/-- Source `BridgeState`: fields as written at the single construction site
(src/index.ts lines 1601-1613); the type declaration itself lives in
the absent src/types/bridge.ts. -/
structure BridgeState where
  userId : String
  channelId : String
  domain : String
  label : String
  years : Nat
  fromChain : Nat
  toChain : Nat
  amount : Nat
  recipient : String
  timestamp : Nat
  status : BridgeStatus
deriving Repr, DecidableEq

/-- Source `SubdomainAssignmentState` (src/types/subdomain.ts). -/
structure SubdomainAssignmentState where
  userId : String
  channelId : String
  subdomain : String
  domain : String
  fullName : String
  recipient : String
  ownerWallet : String
  timestamp : Nat
deriving Repr, DecidableEq

/-- Source `PendingWalletSelection`: fields as written at the construction
site (src/index.ts lines 958-969); the declaring file src/types/wallet.ts
in the sources predates it. -/
structure PendingWalletSelection where
  userId : String
  channelId : String
  domain : String
  label : String
  years : Nat
  allWallets : List WalletInfo
  requiredMainnetAmount : Nat
  bridgeFee : Nat
  timestamp : Nat
deriving Repr, DecidableEq

/-- Source `PendingTestSelection`: fields as written at the construction site
(src/index.ts lines 1072-1077). -/
structure PendingTestSelection where
  userId : String
  channelId : String
  allWallets : List WalletInfo
  timestamp : Nat
deriving Repr, DecidableEq

/-- The five module-level correlation stores of src/index.ts
(lines 60-72). -/
structure BotState where
  pendingCommitments : List (String × CommitmentState)
  pendingBridges : List (String × BridgeState)
  pendingWalletSelections : List (String × PendingWalletSelection)
  pendingTestSelections : List (String × PendingTestSelection)
  pendingSubdomainAssignments : List (String × SubdomainAssignmentState)
deriving Repr, DecidableEq

/-- The bot state with all five stores empty. -/
def emptyBotState : BotState :=
  ⟨[], [], [], [], []⟩

/-! ## Transaction payloads and effects

Contract addresses live in the absent src/constants files; they are
used only as opaque strings here. `encodeFunctionData` is an
out-of-scope ABI primitive, so calldata stays symbolic in `TxData`,
keeping every argument of the on-chain call observable. -/

/-- Source `REGISTRATION.CHAIN_ID` (mainnet). -/
def REGISTRATION_CHAIN_ID : String := "1"

/-- The Sepolia chain id literal from src/index.ts line 1869. -/
def SEPOLIA_CHAIN_ID : String := "11155111"

/-- Source `ENS_CONFIG.REGISTRAR_CONTROLLER`, opaque. -/
def ENS_REGISTRAR_CONTROLLER : String := "ENS_CONFIG.REGISTRAR_CONTROLLER"

/-- Source `SEPOLIA_ENS_CONFIG.REGISTRAR_CONTROLLER`, opaque. -/
def SEPOLIA_REGISTRAR_CONTROLLER : String :=
  "SEPOLIA_ENS_CONFIG.REGISTRAR_CONTROLLER"

/-- Source `SEPOLIA_ENS_CONFIG.PUBLIC_RESOLVER`, opaque. -/
def SEPOLIA_PUBLIC_RESOLVER : String := "SEPOLIA_ENS_CONFIG.PUBLIC_RESOLVER"

/-- The zero-address resolver literal from src/index.ts line 1999. -/
def ZERO_ADDRESS : String := "0x0000000000000000000000000000000000000000"

/-- Symbolic calldata for the transaction requests the orchestrator
builds. -/
inductive TxData where
  /-- `commit(commitmentHash)` calldata. -/
  | commitCall (commitmentHash : String)
  /-- `register(label, owner, duration, secret, resolver, data,
  reverseRecord, ownerControlledFuses)` calldata. -/
  | registerCall (label owner : String) (duration : Nat)
      (secret resolver : String) (data : List String)
      (reverseRecord : Bool) (ownerControlledFuses : Nat)
  /-- Across `depositV3`-shaped bridge deposit calldata. -/
  | bridgeDeposit (depositor recipient : String)
      (inputAmount outputAmount : Nat) (destinationChainId : Nat)
  /-- Raw hex calldata (e.g. the `"0x"` of the zero-value test tx). -/
  | raw (hex : String)
deriving Repr, DecidableEq

/-- The `transaction` interaction-request payload
(`{ id, title, chainId, to, value, data, signerWallet }`). -/
structure TxRequest where
  id : String
  title : String
  chainId : String
  «to» : String
  value : Nat
  data : TxData
  signerWallet : Option String
deriving Repr, DecidableEq

/-- The deferred continuation scheduled by the commit-confirmation
branches (the `setTimeout` closures at src/index.ts lines 1820-1888 and
1982-2047): it captures the saga-kind flag, the commit correlation key,
the commitment record as of confirmation time, and the channel and
user identities. -/
structure TimerTask where
  isTest : Bool
  requestId : String
  commitment : CommitmentState
  channelId : String
  userId : String
deriving Repr, DecidableEq

/-- One observable side effect of a handler, in emission order. -/
inductive Effect where
  | sendMessage (channelId message : String)
  | sendInteractionRequest (channelId : String) (request : TxRequest)
      (recipient : String)
  | consoleError (message : String)
  | schedule (delayMs : Nat) (task : TimerTask)
deriving Repr, DecidableEq

/-- True exactly on interaction-request effects. -/
def isInteractionRequest : Effect → Bool
  | Effect.sendInteractionRequest _ _ _ => true
  | _ => false

/-- True exactly on user-visible channel messages (`sendMessage`), as
opposed to internal `console.error` logs. -/
def isUserMessage : Effect → Bool
  | Effect.sendMessage _ _ => true
  | _ => false

/-! ## Registration saga: the deferred reveal continuation

The `setTimeout` callbacks at src/index.ts lines 1820-1888 (Sepolia)
and 1982-2047 (mainnet). The awaited cost recomputation
(`calculateRegistrationCost(Sepolia)`) is external I/O and is passed in
as `costResult`; `none` models the call throwing, which lands in the
`catch` block. -/

/-- Run the scheduled reveal continuation. On a successful cost
recomputation it announces step 2 and issues the reveal/registration
transaction request under the derived `register-`/`test_register-`
correlation key; on a failure it reports the error and deletes the
commitment record. -/
def runRegisterTimer (costResult : Option (Nat × String)) (t : TimerTask)
    (st : BotState) : BotState × List Effect :=
  match costResult with
  | some (totalWei, totalEth) =>
    let registerRequestId :=
      if t.isTest then jsReplaceFirst t.requestId "testcommit-" "test_register-"
      else jsReplaceFirst t.requestId "commit-" "register-"
    (st,
      [Effect.sendMessage t.channelId
        ("⏰ **60 seconds have passed!** Step 2/2: amount to pay: " ++ totalEth),
       Effect.sendInteractionRequest t.channelId
        { id := registerRequestId
          title := "Register " ++ t.commitment.domain ++
            (if t.isTest then " (Sepolia)" else "")
          chainId := if t.isTest then SEPOLIA_CHAIN_ID else REGISTRATION_CHAIN_ID
          «to» := if t.isTest then SEPOLIA_REGISTRAR_CONTROLLER
            else ENS_REGISTRAR_CONTROLLER
          value := totalWei
          data := TxData.registerCall t.commitment.label t.commitment.owner
            t.commitment.duration t.commitment.secret
            (if t.isTest then SEPOLIA_PUBLIC_RESOLVER else ZERO_ADDRESS)
            [] true 0
          signerWallet := none }
        t.userId])
  | none =>
    ({ st with
        pendingCommitments := mapDelete st.pendingCommitments t.requestId },
     [Effect.consoleError "Error sending register transaction",
      Effect.sendMessage t.channelId
        "❌ An error occurred while preparing the registration transaction."])

/-! ## Transaction-response dispatcher (src/index.ts lines 1785-2130)

One branch function per `startsWith` arm of the else-if chain, then the
chain itself. -/

/-- The `testcommit-` branch (src/index.ts lines 1797-1897): attach the
transaction hash and schedule the Sepolia reveal after the mandatory
commitment age, or on failure delete the record. -/
def handleTestCommitTx (st : BotState) (requestId : String)
    (txHash : Option String) (channelId userId : String) :
    BotState × List Effect :=
  match mapGet st.pendingCommitments requestId with
  | none => (st, [Effect.consoleError ("No commitment found for ID: " ++ requestId)])
  | some commitment =>
    match txHash with
    | some h =>
      let commitment' := { commitment with commitTxHash := some h }
      ({ st with
          pendingCommitments := mapSet st.pendingCommitments requestId commitment' },
       [Effect.sendMessage channelId
          ("✅ **Commit transaction confirmed on Sepolia!** Tx: " ++ h ++
            " — waiting 60 seconds before next step"),
        Effect.schedule (REGISTRATION_MIN_COMMITMENT_AGE * 1000)
          { isTest := true, requestId := requestId, commitment := commitment'
            channelId := channelId, userId := userId }])
    | none =>
      ({ st with
          pendingCommitments := mapDelete st.pendingCommitments requestId },
       [Effect.sendMessage channelId
          "❌ Commit transaction was not confirmed. Registration cancelled."])

/-- The `test_register-` branch (src/index.ts lines 1899-1932): find
the originating commitment under the reversed key; on success announce
and delete it, on failure announce that the commitment is still valid
(and keep the record). -/
def handleTestRegisterTx (st : BotState) (requestId : String)
    (txHash : Option String) (channelId : String) : BotState × List Effect :=
  let commitRequestId := jsReplaceFirst requestId "test_register-" "testcommit-"
  match mapGet st.pendingCommitments commitRequestId with
  | none =>
    (st, [Effect.consoleError ("No commitment found for ID: " ++ commitRequestId)])
  | some commitment =>
    match txHash with
    | some h =>
      ({ st with
          pendingCommitments := mapDelete st.pendingCommitments commitRequestId },
       [Effect.sendMessage channelId
          ("🎉 **Registration successful on Sepolia!** " ++ commitment.domain ++
            " owner " ++ commitment.owner ++ " tx " ++ h)])
    | none =>
      (st,
       [Effect.sendMessage channelId
          ("❌ Registration transaction was not confirmed. " ++
            "The commitment is still valid for 24 hours. " ++
            "You can try again with the same domain.")])

/-- The `testtransfer-` branch (src/index.ts lines 1934-1957): purely a
report; the label is recovered from the correlation key itself and no
store is consulted. -/
def handleTestTransferTx (st : BotState) (requestId : String)
    (txHash : Option String) (channelId : String) : BotState × List Effect :=
  let parts := requestId.splitOn "-"
  let label := String.intercalate "-" (parts.drop 3)
  let fullName := label ++ ".eth"
  match txHash with
  | some h =>
    (st, [Effect.sendMessage channelId
      ("🎉 **Transfer successful on Sepolia!** " ++ fullName ++ " tx " ++ h)])
  | none =>
    (st, [Effect.sendMessage channelId
      ("❌ Transfer transaction was cancelled or failed. No changes were made to " ++
        fullName ++ " ownership.")])

/-- The `commit-` branch (src/index.ts lines 1959-2056): the mainnet
twin of `handleTestCommitTx`. -/
def handleCommitTx (st : BotState) (requestId : String)
    (txHash : Option String) (channelId userId : String) :
    BotState × List Effect :=
  match mapGet st.pendingCommitments requestId with
  | none => (st, [Effect.consoleError ("No commitment found for ID: " ++ requestId)])
  | some commitment =>
    match txHash with
    | some h =>
      let commitment' := { commitment with commitTxHash := some h }
      ({ st with
          pendingCommitments := mapSet st.pendingCommitments requestId commitment' },
       [Effect.sendMessage channelId
          ("✅ **Commit transaction confirmed!** Tx: " ++ h ++
            " — waiting 60 seconds before next step"),
        Effect.schedule (REGISTRATION_MIN_COMMITMENT_AGE * 1000)
          { isTest := false, requestId := requestId, commitment := commitment'
            channelId := channelId, userId := userId }])
    | none =>
      ({ st with
          pendingCommitments := mapDelete st.pendingCommitments requestId },
       [Effect.sendMessage channelId
          "❌ Commit transaction was not confirmed. Registration cancelled."])

/-- The `register-` branch (src/index.ts lines 2058-2090): the mainnet
twin of `handleTestRegisterTx`. -/
def handleRegisterTx (st : BotState) (requestId : String)
    (txHash : Option String) (channelId : String) : BotState × List Effect :=
  let commitRequestId := jsReplaceFirst requestId "register-" "commit-"
  match mapGet st.pendingCommitments commitRequestId with
  | none =>
    (st, [Effect.consoleError ("No commitment found for ID: " ++ commitRequestId)])
  | some commitment =>
    match txHash with
    | some h =>
      ({ st with
          pendingCommitments := mapDelete st.pendingCommitments commitRequestId },
       [Effect.sendMessage channelId
          ("🎉 **Registration successful!** " ++ commitment.domain ++
            " owner " ++ commitment.owner ++ " tx " ++ h)])
    | none =>
      (st,
       [Effect.sendMessage channelId
          ("❌ Registration transaction was not confirmed. " ++
            "The commitment is still valid for 24 hours. " ++
            "You can try again with the same domain.")])

/-- The `subdomain-` branch (src/index.ts lines 2092-2129). -/
def handleSubdomainTx (st : BotState) (requestId : String)
    (txHash : Option String) (channelId : String) : BotState × List Effect :=
  match mapGet st.pendingSubdomainAssignments requestId with
  | none =>
    (st, [Effect.consoleError ("No subdomain assignment found for ID: " ++ requestId)])
  | some state =>
    match txHash with
    | none =>
      ({ st with pendingSubdomainAssignments :=
          mapDelete st.pendingSubdomainAssignments requestId },
       [Effect.sendMessage channelId
          ("❌ **Transaction cancelled** Subdomain assignment for " ++
            state.fullName ++ " has been cancelled.")])
    | some h =>
      ({ st with pendingSubdomainAssignments :=
          mapDelete st.pendingSubdomainAssignments requestId },
       [Effect.sendMessage channelId
          ("🎉 **Subdomain assignment complete!** " ++ state.fullName ++
            " tx " ++ h)])

/-- The transaction-response dispatcher: the `startsWith` else-if chain
of `bot.onInteractionResponse` (src/index.ts lines 1785-2130), in
source order. A key matching none of the six prefixes is ignored. -/
def onTransactionResponse (st : BotState) (requestId : String)
    (txHash : Option String) (channelId userId : String) :
    BotState × List Effect :=
  if jsStartsWith requestId "testcommit-" then
    handleTestCommitTx st requestId txHash channelId userId
  else if jsStartsWith requestId "test_register-" then
    handleTestRegisterTx st requestId txHash channelId
  else if jsStartsWith requestId "testtransfer-" then
    handleTestTransferTx st requestId txHash channelId
  else if jsStartsWith requestId "commit-" then
    handleCommitTx st requestId txHash channelId userId
  else if jsStartsWith requestId "register-" then
    handleRegisterTx st requestId txHash channelId
  else if jsStartsWith requestId "subdomain-" then
    handleSubdomainTx st requestId txHash channelId
  else
    (st, [])

/-- The six transaction-dispatch prefixes, in the order the source
tests them. -/
def txPrefixes : List String :=
  ["testcommit-", "test_register-", "testtransfer-", "commit-",
   "register-", "subdomain-"]

/-! ## Form-response dispatcher (src/index.ts lines 1272-1655)

The wallet-selection handler. External I/O of the selection bodies
(balance reads, commitment hashing, `Date.now()`, the random secret of
`generateRegistrationParams`) is passed in as a `FormExt` oracle. -/

/-- One component of a form response; the orchestrator only inspects
whether it is a button and its id (the wallet address). -/
structure FormComponent where
  id : String
  isButton : Bool
deriving Repr, DecidableEq

/-- The `for (const component of formResponse.components)`-with-`break`
loops at src/index.ts lines 1296-1301 and 1409-1415: the id of the
first button component, if any. -/
def firstButtonId (components : List FormComponent) : Option String :=
  (components.find? (fun c => c.isButton)).map (fun c => c.id)

/-- Source `ENS_CONFIG.PUBLIC_RESOLVER`-analogue used by
`generateRegistrationParams`, opaque. -/
def ENS_PUBLIC_RESOLVER : String := "ENS_CONFIG.PUBLIC_RESOLVER"

/-- Source `ACROSS_SPOKE_POOL.BASE`, opaque. -/
def ACROSS_SPOKE_POOL_BASE : String := "ACROSS_SPOKE_POOL.BASE"

/-- Source `generateRegistrationParams` (the mainnet half of
src/services/ens.ts is absent from the sources; this mirrors its
Sepolia twin `generateRegistrationParamsSepolia`, src/services/
ens-sepolia.ts lines 106-130, which the source keeps structurally
identical up to the resolver constant). The random 32-byte secret is
the oracle argument `secret`; `label` is the already-normalized label
the call sites pass. -/
def generateRegistrationParams (secret : String) (label owner : String)
    (years : Nat) : RegistrationParams :=
  { label := label
    owner := owner
    duration := years * SECONDS_PER_YEAR
    secret := secret
    resolver := ENS_PUBLIC_RESOLVER
    data := []
    reverseRecord := true
    ownerControlledFuses := 0 }

/-- The `{ to, value, data }` shape returned by the bridge transaction
builders (src/services/bridge.ts lines 111-155). -/
structure BridgeTxShape where
  «to» : String
  value : Nat
  data : TxData
deriving Repr, DecidableEq

/-- Modelled from the spec: `prepareBridgeTransactionEOA`
(src/services/bridge.ts in the sources predates it; todo.md names it as
the EOA-to-EOA variant of the present `prepareBridgeTransaction`,
which targets the Across spoke pool with `value = amount`). Spec
section 4.3: a single cross-chain transfer instruction with the chosen
wallet as both depositor and recipient. -/
def prepareBridgeTransactionEOA (amount : Nat) (depositor recipient : String)
    (outputAmount : Nat) (fromChainId toChainId : Nat) : BridgeTxShape :=
  let _ := fromChainId
  { «to» := ACROSS_SPOKE_POOL_BASE
    value := amount
    data := TxData.bridgeDeposit depositor recipient amount outputAmount
      toChainId }

/-- Modelled from the spec: `determinePathForWallet`
(src/utils/wallets.ts in the sources predates it). Spec section 4.1
for a single already-eligible wallet: Path A iff the destination-chain
balance covers the required amount, else Path B iff the source-chain
balance covers required plus fee; Path C is not produced for a single
wallet (src/index.ts line 1647 notes Path C is not supported in
interactive selection). -/
def determinePathForWallet (w : WalletInfo) (requiredMainnetAmount : Nat)
    (bridgeFee : Nat) : Option FlowPath :=
  if requiredMainnetAmount ≤ w.mainnet then some FlowPath.A
  else if requiredMainnetAmount + bridgeFee ≤ w.base then some FlowPath.B
  else none

/-- Oracle data for the form-response handler bodies: per-address
balance reads, the random secret drawn by `generateRegistrationParams`,
the `makeCommitment` contract call (`none` models a throw), and
`Date.now()`. -/
structure FormExt where
  mainnetBalance : String → Nat
  baseBalance : String → Nat
  secret : String
  makeCommitment : RegistrationParams → Option String
  now : Nat

/-- Printable name of a path, as interpolated into the selection
confirmation message. -/
def pathName : FlowPath → String
  | FlowPath.A => "A"
  | FlowPath.B => "B"
  | FlowPath.C => "C"

/-- The `test-wallet-pick-` branch (src/index.ts lines 1283-1389). -/
def handleTestWalletPick (ext : FormExt) (st : BotState)
    (requestId : String) (components : List FormComponent)
    (channelId : String) : BotState × List Effect :=
  match mapGet st.pendingTestSelections requestId with
  | none =>
    (st, [Effect.sendMessage channelId
      "⚠️ Selection expired. Please run /test_wallet_pick again."])
  | some selection =>
    match firstButtonId components with
    | none =>
      (st, [Effect.sendMessage channelId
        "⚠️ No wallet selected. Please try again."])
    | some selectedAddress =>
      match selection.allWallets.find?
          (fun w => w.address == selectedAddress) with
      | none =>
        (st, [Effect.sendMessage channelId
          "⚠️ Invalid wallet selection. Please try again."])
      | some selectedWallet =>
        let st1 := { st with
          pendingTestSelections := mapDelete st.pendingTestSelections requestId }
        (st1,
         [Effect.sendMessage channelId
            ("✅ **Wallet Selected!** " ++ selectedAddress ++
              (if selectedWallet.isEOA then " (EOA)" else " (Smart Account)")),
          Effect.sendInteractionRequest channelId
            { id := "test-tx-" ++ channelId ++ "-" ++ toString ext.now
              title := "Test Transaction (Zero Value)"
              chainId := toString CHAIN_BASE
              «to» := selectedAddress
              value := 0
              data := TxData.raw "0x"
              signerWallet := some selectedAddress }
            selection.userId,
          Effect.sendMessage channelId "📤 **Test transaction sent!**"])

/-- The `wallet-select-` branch (src/index.ts lines 1392-1654):
consume the pending selection, re-derive the funding path for the
chosen wallet, and start either the registration saga (Path A) or the
bridge saga (Path B). -/
def handleWalletSelect (ext : FormExt) (st : BotState) (requestId : String)
    (components : List FormComponent) (channelId : String) :
    BotState × List Effect :=
  match mapGet st.pendingWalletSelections requestId with
  | none =>
    (st, [Effect.sendMessage channelId
      "⚠️ Selection expired. Please run /bridge_register again."])
  | some selection =>
    match firstButtonId components with
    | none =>
      (st, [Effect.sendMessage channelId
        "⚠️ No wallet selected. Please try again."])
    | some selectedAddress =>
      match selection.allWallets.find?
          (fun w => w.address == selectedAddress) with
      | none =>
        (st, [Effect.sendMessage channelId
          "⚠️ Invalid wallet selection. Please try again."])
      | some selectedWallet =>
        match determinePathForWallet selectedWallet
            selection.requiredMainnetAmount selection.bridgeFee with
        | none =>
          (st, [Effect.sendMessage channelId
            "⚠️ Selected wallet no longer has sufficient funds. Please try again."])
        | some path =>
          let st1 := { st with
            pendingWalletSelections := mapDelete st.pendingWalletSelections requestId }
          let confirmMsg := Effect.sendMessage channelId
            ("✅ **Wallet Selected:** " ++ selectedAddress ++ " — path " ++
              pathName path ++ " — " ++ selection.domain)
          match path with
          | FlowPath.A =>
            let balanceMsg := Effect.sendMessage channelId
              ("✅ **Sufficient Mainnet balance found!** " ++
                formatEther (ext.mainnetBalance selectedAddress) ++
                " ETH, required " ++
                formatEther selection.requiredMainnetAmount ++ " ETH")
            let params := generateRegistrationParams ext.secret
              selection.label selectedAddress selection.years
            match ext.makeCommitment params with
            | none =>
              (st1, [confirmMsg, balanceMsg,
                Effect.sendMessage channelId
                  "❌ An error occurred while processing your selection. Please try again."])
            | some commitmentHash =>
              let commitmentId := "commit-" ++ channelId ++ "-" ++
                selection.userId ++ "-" ++ selection.label
              let st2 := { st1 with
                pendingCommitments := mapSet st1.pendingCommitments commitmentId
                  { userId := selection.userId
                    channelId := channelId
                    domain := selection.domain
                    label := selection.label
                    commitment := commitmentHash
                    secret := params.secret
                    owner := selectedAddress
                    duration := params.duration
                    timestamp := ext.now
                    commitTxHash := none } }
              (st2,
               [confirmMsg, balanceMsg,
                Effect.sendInteractionRequest channelId
                  { id := commitmentId
                    title := "Commit ENS Registration: " ++ selection.domain
                    chainId := REGISTRATION_CHAIN_ID
                    «to» := ENS_REGISTRAR_CONTROLLER
                    value := 0
                    data := TxData.commitCall commitmentHash
                    signerWallet := some selectedAddress }
                  selection.userId,
                Effect.sendMessage channelId "📤 **Transaction request sent!**"])
          | FlowPath.B =>
            let outputAmount :=
              if selection.bridgeFee < selection.requiredMainnetAmount then
                selection.requiredMainnetAmount - selection.bridgeFee
              else 0
            let balanceMsg := Effect.sendMessage channelId
              ("✅ **Base EOA has sufficient funds!** From Base EOA (" ++
                formatEther (ext.baseBalance selectedAddress) ++
                " ETH), bridging " ++
                formatEther selection.requiredMainnetAmount ++
                " ETH, receiving about " ++ formatEther outputAmount ++
                " ETH on Mainnet")
            let bridgeData := prepareBridgeTransactionEOA
              selection.requiredMainnetAmount selectedAddress selectedAddress
              outputAmount CHAIN_BASE CHAIN_MAINNET
            let bridgeId := "bridge-eoa-" ++ channelId ++ "-" ++
              selection.userId ++ "-" ++ selection.label
            let st2 := { st1 with
              pendingBridges := mapSet st1.pendingBridges bridgeId
                { userId := selection.userId
                  channelId := channelId
                  domain := selection.domain
                  label := selection.label
                  years := selection.years
                  fromChain := CHAIN_BASE
                  toChain := CHAIN_MAINNET
                  amount := selection.requiredMainnetAmount
                  recipient := selectedAddress
                  timestamp := ext.now
                  status := BridgeStatus.pending } }
            (st2,
             [confirmMsg, balanceMsg,
              Effect.sendInteractionRequest channelId
                { id := bridgeId
                  title := "Bridge " ++
                    formatEther selection.requiredMainnetAmount ++
                    " ETH to Mainnet"
                  chainId := toString CHAIN_BASE
                  «to» := bridgeData.to
                  value := bridgeData.value
                  data := bridgeData.data
                  signerWallet := some selectedAddress }
                selection.userId,
              Effect.sendMessage channelId "📤 **Bridge transaction sent!**"])
          | FlowPath.C =>
            (st1, [confirmMsg])

/-- The form-response dispatcher (src/index.ts lines 1272-1655): the
`test-wallet-pick-` branch, then the `wallet-select-` guard; any other
prefix is ignored. -/
def onFormResponse (ext : FormExt) (st : BotState) (requestId : String)
    (components : List FormComponent) (channelId : String) :
    BotState × List Effect :=
  if jsStartsWith requestId "test-wallet-pick-" then
    handleTestWalletPick ext st requestId components channelId
  else if jsStartsWith requestId "wallet-select-" then
    handleWalletSelect ext st requestId components channelId
  else
    (st, [])

/-! ## The `/register` slash command (src/index.ts lines 366-505)

Creation site of a `RegistrationCommitment`: the random secret and the
commitment hash are produced together from one `RegistrationParams`
value and stored in a single `pendingCommitments.set`. All awaited
externals are oracle data; `none` models a throw, which lands in the
single `catch` of the command. -/

/-- Result shape of `normalizeENSName` (src/utils/ens.ts lines 8-37).
The function delegates to the external viem `normalize`, so the whole
result is oracle data. -/
structure NormResult where
  normalized : String
  valid : Bool
  reason : String
deriving Repr, DecidableEq

/-- Result shape of `checkAvailability` (src/services/ens.ts). -/
structure AvailResult where
  available : Bool
  reason : String
deriving Repr, DecidableEq

/-- JS `parseInt` on the strings the command receives: parse the
leading decimal digits, `none` when there is none (`NaN`; a negative
or otherwise malformed argument likewise fails the `1..10` validation
in the caller). -/
def jsParseInt (s : String) : Option Nat :=
  let ds := s.data.takeWhile Char.isDigit
  if ds.isEmpty then none
  else some (ds.foldl (fun n c => n * 10 + (c.toNat - 48)) 0)

/-- Oracle data for the `/register` command: the normalizer, the
availability oracle, the cost oracle (total wei and rendered ETH), the
user wallet lookup, the random secret, the `makeCommitment` contract
call and `Date.now()`. -/
structure RegCmdExt where
  norm : String → NormResult
  availability : String → Option AvailResult
  cost : String → Nat → Option (Nat × String)
  userWallet : Option String
  secret : String
  makeCommitment : RegistrationParams → Option String
  now : Nat

/-- The `/register` command handler (src/index.ts lines 366-505):
validate, check availability, then generate the registration
parameters, hash the commitment, store the `CommitmentState` under the
`commit-` correlation key and issue the commit transaction request. -/
def onRegisterCommand (ext : RegCmdExt) (st : BotState)
    (channelId userId : String) (args : List String) :
    BotState × List Effect :=
  match args with
  | [] =>
    (st, [Effect.sendMessage channelId
      "⚠️ Please provide a domain name to register."])
  | domainArg :: restArgs =>
    let yearsOpt :=
      match restArgs with
      | [] => some 1
      | yArg :: _ => if yArg = "" then some 1 else jsParseInt yArg
    match yearsOpt with
    | none =>
      (st, [Effect.sendMessage channelId
        "⚠️ Invalid duration. Please specify 1-10 years."])
    | some years =>
      if years < 1 ∨ 10 < years then
        (st, [Effect.sendMessage channelId
          "⚠️ Invalid duration. Please specify 1-10 years."])
      else
        let norm := ext.norm domainArg
        let fullName := norm.normalized ++ ".eth"
        if !norm.valid then
          (st, [Effect.sendMessage channelId
            ("⚠️ Invalid domain: " ++ norm.reason)])
        else
          let checking := Effect.sendMessage channelId
            ("Checking availability for " ++ fullName ++ "...")
          let errCatch := Effect.sendMessage channelId
            "❌ An error occurred while initiating registration. Please try again later."
          match ext.availability norm.normalized with
          | none => (st, [checking, errCatch])
          | some av =>
            if !av.available then
              (st, [checking, Effect.sendMessage channelId
                ("❌ " ++ fullName ++ " is not available for registration.")])
            else
              match ext.cost norm.normalized years with
              | none => (st, [checking, errCatch])
              | some (_, totalEth) =>
                match ext.userWallet with
                | none => (st, [checking, errCatch])
                | some userWallet =>
                  let params := generateRegistrationParams ext.secret
                    norm.normalized userWallet years
                  match ext.makeCommitment params with
                  | none => (st, [checking, errCatch])
                  | some commitmentHash =>
                    let commitmentId := "commit-" ++ channelId ++ "-" ++
                      userId ++ "-" ++ norm.normalized
                    let st' := { st with
                      pendingCommitments := mapSet st.pendingCommitments
                        commitmentId
                        { userId := userId
                          channelId := channelId
                          domain := fullName
                          label := norm.normalized
                          commitment := commitmentHash
                          secret := params.secret
                          owner := userWallet
                          duration := params.duration
                          timestamp := ext.now
                          commitTxHash := none } }
                    (st',
                     [checking,
                      Effect.sendMessage channelId
                        ("✅ " ++ fullName ++
                          " is available! Cost " ++ totalEth ++
                          " ETH. Step 1/2: submitting commitment transaction"),
                      Effect.sendInteractionRequest channelId
                        { id := commitmentId
                          title := "Commit ENS Registration: " ++ fullName
                          chainId := REGISTRATION_CHAIN_ID
                          «to» := ENS_REGISTRAR_CONTROLLER
                          value := 0
                          data := TxData.commitCall commitmentHash
                          signerWallet := none }
                        userId,
                      Effect.sendMessage channelId
                        "📤 **Transaction request sent!**"])

/-! ## Helper lemmas for branch resolution -/

theorem listReplaceFirst_atFront {s pat : List Char} (rep : List Char)
    (h : pat.isPrefixOf s) :
    listReplaceFirst s pat rep = rep ++ s.drop pat.length := by
  unfold listReplaceFirst
  rw [if_pos h]

theorem listReplaceFirst_append (pat rep t : List Char) :
    listReplaceFirst (pat ++ t) pat rep = rep ++ t := by
  rw [listReplaceFirst_atFront rep (by simp [List.isPrefixOf_iff_prefix]),
    List.drop_append_of_le_length (by simp), List.drop_length, List.nil_append]

theorem jsReplaceFirst_append (pat rep t : String) :
    jsReplaceFirst (pat ++ t) pat rep = rep ++ t := by
  show String.mk (listReplaceFirst (pat.data ++ t.data) pat.data rep.data) = _
  rw [listReplaceFirst_append]
  rfl

/-- Two incomparable strings cannot both be prefixes of the same string. -/
theorem not_both_isPrefixOf {p q : List Char} (k : List Char)
    (hpq : p.isPrefixOf q = false) (hqp : q.isPrefixOf p = false) :
    ¬(p.isPrefixOf k = true ∧ q.isPrefixOf k = true) := by
  rintro ⟨hp, hq⟩
  rw [List.isPrefixOf_iff_prefix] at hp hq
  rcases le_total p.length q.length with h | h
  · have := List.prefix_of_prefix_length_le hp hq h
    rw [← List.isPrefixOf_iff_prefix] at this
    simp [this] at hpq
  · have := List.prefix_of_prefix_length_le hq hp h
    rw [← List.isPrefixOf_iff_prefix] at this
    simp [this] at hqp

/-- String-level version of `not_both_isPrefixOf`: if each of two
prefixes fails to start the other, no string starts with both. -/
theorem jsStartsWith_excl {p q : String} (k : String)
    (hpq : jsStartsWith q p = false) (hqp : jsStartsWith p q = false) :
    ¬(jsStartsWith k p = true ∧ jsStartsWith k q = true) :=
  not_both_isPrefixOf k.data hpq hqp

theorem jsStartsWith_of_append (pre t : String) :
    jsStartsWith (pre ++ t) pre = true := by
  show (pre.data.isPrefixOf (pre.data ++ t.data)) = true
  simp [List.isPrefixOf_iff_prefix]

/-- A string starting with `pre` is `pre` followed by its remainder. -/
theorem jsStartsWith_iff_exists (k pre : String) :
    jsStartsWith k pre = true ↔ ∃ t : String, k = pre ++ t := by
  constructor
  · intro h
    have h' : pre.data <+: k.data := by
      rw [← List.isPrefixOf_iff_prefix]; exact h
    rcases h' with ⟨t, ht⟩
    exact ⟨⟨t⟩, by cases k; cases pre; simp_all [String.ext_iff]⟩
  · rintro ⟨t, rfl⟩
    exact jsStartsWith_of_append pre t

theorem mapGet_set_self {α : Type} (m : List (String × α)) (k : String)
    (v : α) : mapGet (mapSet m k v) k = some v := by
  induction m with
  | nil => simp [mapGet, mapSet]
  | cons hd tl ih =>
    obtain ⟨k', v'⟩ := hd
    by_cases h : k' = k
    · subst h; simp [mapGet, mapSet]
    · simpa [mapGet, mapSet, h] using ih

theorem mapGet_set_ne {α : Type} (m : List (String × α)) (k k' : String)
    (v : α) (h : k ≠ k') : mapGet (mapSet m k v) k' = mapGet m k' := by
  induction m with
  | nil => simp [mapGet, mapSet, h]
  | cons hd tl ih =>
    obtain ⟨k₀, v₀⟩ := hd
    by_cases h₀ : k₀ = k
    · subst h₀; simp [mapGet, mapSet, h]
    · by_cases h₁ : k₀ = k'
      · subst h₁; simp [mapGet, mapSet, h₀]
      · simpa [mapGet, mapSet, h₀, h₁] using ih

theorem mapGet_delete_self {α : Type} (m : List (String × α)) (k : String) :
    mapGet (mapDelete m k) k = none := by
  induction m with
  | nil => simp [mapGet, mapDelete]
  | cons hd tl ih =>
    obtain ⟨k₀, v₀⟩ := hd
    by_cases h : k₀ = k
    · subst h; simpa [mapDelete] using ih
    · simpa [mapGet, mapDelete, h] using ih

theorem mapGet_delete_ne {α : Type} (m : List (String × α)) (k k' : String)
    (h : k ≠ k') : mapGet (mapDelete m k) k' = mapGet m k' := by
  induction m with
  | nil => simp [mapGet, mapDelete]
  | cons hd tl ih =>
    obtain ⟨k₀, v₀⟩ := hd
    by_cases h₀ : k₀ = k
    · subst h₀; simpa [mapGet, mapDelete, h] using ih
    · by_cases h₁ : k₀ = k'
      · subst h₁; simp [mapGet, mapDelete, h₀]
      · simpa [mapGet, mapDelete, h₀, h₁] using ih


/-- If `k` starts with `q`, and `p` and `q` are incomparable under the
prefix order, then `k` does not start with `p`. -/
theorem jsStartsWith_false_of_incomp {q : String} (k : String) {p : String}
    (hk : jsStartsWith k q = true) (h1 : jsStartsWith q p = false)
    (h2 : jsStartsWith p q = false) : jsStartsWith k p = false := by
  rcases Bool.eq_false_or_eq_true (jsStartsWith k p) with h | h
  · exact absurd ⟨h, hk⟩ (jsStartsWith_excl k h1 h2)
  · exact h

/-! ## Claim theorems -/

/-- C5: for every commit correlation key (a key starting with
`commit-`, resp. `testcommit-`), substituting the commit prefix with
the reveal prefix — exactly as `requestId.replace` does at src/index.ts
lines 2007 and 1845 — and then reversing the substitution — as at
lines 2059 and 1900 — recovers the original commit key string. -/
theorem revealKey_roundtrip (k : String) :
    (jsStartsWith k "commit-" = true →
      jsReplaceFirst (jsReplaceFirst k "commit-" "register-")
        "register-" "commit-" = k) ∧
    (jsStartsWith k "testcommit-" = true →
      jsReplaceFirst (jsReplaceFirst k "testcommit-" "test_register-")
        "test_register-" "testcommit-" = k) := by
  constructor
  · intro h
    rcases (jsStartsWith_iff_exists k "commit-").mp h with ⟨t, rfl⟩
    rw [jsReplaceFirst_append, jsReplaceFirst_append]
  · intro h
    rcases (jsStartsWith_iff_exists k "testcommit-").mp h with ⟨t, rfl⟩
    rw [jsReplaceFirst_append, jsReplaceFirst_append]

/-- Witness for C5 at the concrete keys `commit-c-u-abc` and
`testcommit-c-u-abc`. -/
theorem revealKey_roundtrip_witness :
    jsReplaceFirst (jsReplaceFirst "commit-c-u-abc" "commit-" "register-")
      "register-" "commit-" = "commit-c-u-abc" ∧
    jsReplaceFirst
      (jsReplaceFirst "testcommit-c-u-abc" "testcommit-" "test_register-")
      "test_register-" "testcommit-" = "testcommit-c-u-abc" :=
  ⟨(revealKey_roundtrip "commit-c-u-abc").1 (by decide),
   (revealKey_roundtrip "testcommit-c-u-abc").2 (by decide)⟩

/-- C7: the required destination-chain amount is the registration cost
plus the fixed 0.01 ETH gas reserve inflated by the percentage buffer
(`(100 + p)% of (cost + gasReserve)` under truncating division), it is
monotonically increasing in the registration cost, and at cost 0.01
ETH, gas reserve 0.01 ETH, buffer 10% it is exactly 0.022 ETH. -/
theorem calculateRequiredMainnetETH_spec (c c' p : Nat) (hcc : c ≤ c') :
    calculateRequiredMainnetETH c p = (100 + p) * (c + 10 ^ 16) / 100 ∧
    calculateRequiredMainnetETH c p ≤ calculateRequiredMainnetETH c' p ∧
    calculateRequiredMainnetETH (10 ^ 16) 10 = 22 * 10 ^ 15 := by
  have hdef : ∀ x : Nat, calculateRequiredMainnetETH x p =
      (x + 10 ^ 16) + (x + 10 ^ 16) * p / 100 := fun _ => rfl
  refine ⟨?_, ?_, by norm_num [calculateRequiredMainnetETH]⟩
  · rw [hdef]
    have hmul : (100 + p) * (c + 10 ^ 16) =
        (c + 10 ^ 16) * p + 100 * (c + 10 ^ 16) := by ring
    rw [hmul, Nat.add_mul_div_left _ _ (by norm_num : (0 : ℕ) < 100)]
    omega
  · rw [hdef, hdef]
    have hdiv : (c + 10 ^ 16) * p / 100 ≤ (c' + 10 ^ 16) * p / 100 :=
      Nat.div_le_div_right (Nat.mul_le_mul_right p (by omega))
    omega

/-- Witness for C7 at cost 0.01 ETH versus 0.02 ETH, buffer 10%. -/
theorem calculateRequiredMainnetETH_spec_witness :
    calculateRequiredMainnetETH (10 ^ 16) 10 =
      (100 + 10) * (10 ^ 16 + 10 ^ 16) / 100 ∧
    calculateRequiredMainnetETH (10 ^ 16) 10 ≤
      calculateRequiredMainnetETH (2 * 10 ^ 16) 10 ∧
    calculateRequiredMainnetETH (10 ^ 16) 10 = 22 * 10 ^ 15 :=
  calculateRequiredMainnetETH_spec (10 ^ 16) (2 * 10 ^ 16) 10 (by norm_num)

/-- C8: whenever some externally-owned wallet has a Mainnet
(destination-chain) balance covering the required amount, the funding
analyzer recommends a wallet on Path A — regardless of all Base
(source-chain) balances, since the Path A probe is the first one
`recommendWallet` runs. -/
theorem recommendWallet_pathA (ws : List WalletInfo) (req fee : Nat)
    (h : ∃ w ∈ ws, w.isEOA = true ∧ req ≤ w.mainnet) :
    ∃ r, recommendWallet ws req fee = some r ∧ r.path = FlowPath.A := by
  rcases h with ⟨w, hw, heoa, hreq⟩
  have hmem : w ∈ ws.filter (fun w => w.isEOA) :=
    List.mem_filter.mpr ⟨hw, heoa⟩
  have hlen : ¬((ws.filter (fun w => w.isEOA)).length = 0) := by
    intro h0
    rw [List.length_eq_zero] at h0
    rw [h0] at hmem
    simp at hmem
  have hfind : ((ws.filter (fun w => w.isEOA)).find?
      (fun w => req ≤ w.mainnet)).isSome := by
    rw [List.find?_isSome]
    exact ⟨w, hmem, by simp [hreq]⟩
  rcases Option.isSome_iff_exists.mp hfind with ⟨v, hv⟩
  unfold recommendWallet
  simp only []
  rw [if_neg hlen, hv]
  exact ⟨_, rfl, rfl⟩

/-- Witness for C8: a wallet holding exactly the required amount on
Mainnet and nothing on Base is recommended on Path A. -/
theorem recommendWallet_pathA_witness :
    ∃ r, recommendWallet [⟨"0xa", true, 22, 0⟩] 22 1 = some r ∧
      r.path = FlowPath.A :=
  recommendWallet_pathA [⟨"0xa", true, 22, 0⟩] 22 1 (by decide)

/-- C9: when no externally-owned wallet can fund Path A or Path B and
no smart-account-plus-EOA combination can fund Path C (either every
smart account is short of required-plus-fee on Base, or there is no
externally-owned wallet at all), the analyzer returns the explicit
no-funds result `none`; being a total function, it cannot throw. -/
theorem recommendWallet_noFunds (ws : List WalletInfo) (req fee : Nat)
    (hA : ∀ w ∈ ws, w.isEOA = true → w.mainnet < req)
    (hB : ∀ w ∈ ws, w.isEOA = true → w.base < req + fee)
    (hC : (∀ w ∈ ws, w.isEOA = false → w.base < req + fee) ∨
      (∀ w ∈ ws, w.isEOA = false)) :
    recommendWallet ws req fee = none := by
  by_cases hlen : (ws.filter (fun w => w.isEOA)).length = 0
  · unfold recommendWallet
    rw [if_pos hlen]
  · have hfA : (ws.filter (fun w => w.isEOA)).find?
        (fun w => req ≤ w.mainnet) = none := by
      rw [List.find?_eq_none]
      intro w hw
      have := List.mem_filter.mp hw
      simp [Nat.not_le]
      exact hA w this.1 this.2
    have hfB : (ws.filter (fun w => w.isEOA)).find?
        (fun w => req + fee ≤ w.base) = none := by
      rw [List.find?_eq_none]
      intro w hw
      have := List.mem_filter.mp hw
      simp [Nat.not_le]
      exact hB w this.1 this.2
    rcases hC with hC | hC
    · have hfC : (ws.filter (fun w => !w.isEOA)).find?
          (fun w => req + fee ≤ w.base) = none := by
        rw [List.find?_eq_none]
        intro w hw
        have := List.mem_filter.mp hw
        simp [Nat.not_le]
        exact hC w this.1 (by simpa using this.2)
      unfold recommendWallet
      simp only []
      rw [if_neg hlen, hfA, hfB, hfC]
    · exfalso
      apply hlen
      rw [List.length_eq_zero, List.filter_eq_nil_iff]
      intro w hw
      simp [hC w hw]

/-- Witness for C9: one underfunded EOA plus one underfunded smart
account yields the no-funds result. -/
theorem recommendWallet_noFunds_witness :
    recommendWallet [⟨"0xa", true, 1, 1⟩, ⟨"0xb", false, 0, 1⟩] 22 1 =
      none :=
  recommendWallet_noFunds [⟨"0xa", true, 1, 1⟩, ⟨"0xb", false, 0, 1⟩] 22 1
    (by decide) (by decide) (by decide)

/-- C10: the transaction-confirmation chain is a mutually exclusive
first-match dispatch: no correlation key matches two of the six tested
prefixes (they are pairwise prefix-incomparable), and in particular a
`test_register-` key is resolved by the `test_register-` branch (never
the mainnet `register-` branch, nor any other), and a `testcommit-`
key by the `testcommit-` branch. -/
theorem txDispatch_exclusive (k : String) :
    (∀ p ∈ txPrefixes, ∀ q ∈ txPrefixes,
      jsStartsWith k p = true → jsStartsWith k q = true → p = q) ∧
    (jsStartsWith k "test_register-" = true →
      ∀ st h ch u, onTransactionResponse st k h ch u =
        handleTestRegisterTx st k h ch) ∧
    (jsStartsWith k "testcommit-" = true →
      ∀ st h ch u, onTransactionResponse st k h ch u =
        handleTestCommitTx st k h ch u) := by
  refine ⟨?_, ?_, ?_⟩
  · intro p hp q hq hkp hkq
    simp only [txPrefixes, List.mem_cons, List.not_mem_nil, or_false] at hp hq
    rcases hp with rfl | rfl | rfl | rfl | rfl | rfl <;>
      rcases hq with rfl | rfl | rfl | rfl | rfl | rfl <;>
      first
        | rfl
        | exact absurd ⟨hkp, hkq⟩ (jsStartsWith_excl k (by decide) (by decide))
  · intro hk st h ch u
    have h1 : jsStartsWith k "testcommit-" = false :=
      jsStartsWith_false_of_incomp k hk (by decide) (by decide)
    simp [onTransactionResponse, h1, hk]
  · intro hk st h ch u
    simp [onTransactionResponse, hk]

/-- Witness for C10 at the concrete key `test_register-c-u-abc`: the
only matching prefix is `test_register-` itself, and the dispatcher
lands in the `test_register-` branch. -/
theorem txDispatch_exclusive_witness :
    ("test_register-" : String) = "test_register-" ∧
    onTransactionResponse emptyBotState "test_register-c-u-abc" none "c" "u" =
      handleTestRegisterTx emptyBotState "test_register-c-u-abc" none "c" :=
  ⟨(txDispatch_exclusive "test_register-c-u-abc").1 "test_register-"
      (by decide) "test_register-" (by decide) (by decide) (by decide),
   (txDispatch_exclusive "test_register-c-u-abc").2.1 (by decide)
      emptyBotState none "c" "u"⟩

/-- C1: when a commit confirmation (mainnet or Sepolia) arrives with a
transaction hash for a pending commitment, the handler issues no
interaction request at all in its immediate effects — in particular no
reveal request, even with a zero-latency confirmation — every
continuation it schedules has delay `MIN_COMMITMENT_AGE * 1000`
milliseconds, and the reveal request is dispatched by such a scheduled
continuation (whenever its cost recomputation succeeds). -/
theorem revealDelay_observed (st : BotState) (k h ch u : String)
    (c : CommitmentState)
    (hpre : jsStartsWith k "commit-" = true ∨
      jsStartsWith k "testcommit-" = true)
    (hc : mapGet st.pendingCommitments k = some c) :
    ((onTransactionResponse st k (some h) ch u).2.all
      (fun e => !(isInteractionRequest e)) = true) ∧
    (∀ d t, Effect.schedule d t ∈ (onTransactionResponse st k (some h) ch u).2 →
      d = REGISTRATION_MIN_COMMITMENT_AGE * 1000) ∧
    (∃ t, Effect.schedule (REGISTRATION_MIN_COMMITMENT_AGE * 1000) t ∈
        (onTransactionResponse st k (some h) ch u).2 ∧
      ∀ w e st₀, ∃ req,
        Effect.sendInteractionRequest t.channelId req t.userId ∈
          (runRegisterTimer (some (w, e)) t st₀).2) := by
  rcases hpre with hk | hk
  · have h1 : jsStartsWith k "testcommit-" = false :=
      jsStartsWith_false_of_incomp k hk (by decide) (by decide)
    have h2 : jsStartsWith k "test_register-" = false :=
      jsStartsWith_false_of_incomp k hk (by decide) (by decide)
    have h3 : jsStartsWith k "testtransfer-" = false :=
      jsStartsWith_false_of_incomp k hk (by decide) (by decide)
    have hres : onTransactionResponse st k (some h) ch u =
        handleCommitTx st k (some h) ch u := by
      simp [onTransactionResponse, h1, h2, h3, hk]
    rw [hres]
    simp only [handleCommitTx, hc]
    refine ⟨by simp [isInteractionRequest], ?_, ?_⟩
    · intro d t hmem
      simp only [List.mem_cons, List.not_mem_nil, or_false] at hmem
      rcases hmem with hmem | hmem
      · exact absurd hmem (by simp)
      · cases hmem
        rfl
    · refine ⟨_, List.mem_cons_of_mem _ (List.mem_cons_self _ _), ?_⟩
      intro w e st₀
      exact ⟨_, List.mem_cons_of_mem _ (List.mem_cons_self _ _)⟩
  · have hres : onTransactionResponse st k (some h) ch u =
        handleTestCommitTx st k (some h) ch u := by
      simp [onTransactionResponse, hk]
    rw [hres]
    simp only [handleTestCommitTx, hc]
    refine ⟨by simp [isInteractionRequest], ?_, ?_⟩
    · intro d t hmem
      simp only [List.mem_cons, List.not_mem_nil, or_false] at hmem
      rcases hmem with hmem | hmem
      · exact absurd hmem (by simp)
      · cases hmem
        rfl
    · refine ⟨_, List.mem_cons_of_mem _ (List.mem_cons_self _ _), ?_⟩
      intro w e st₀
      exact ⟨_, List.mem_cons_of_mem _ (List.mem_cons_self _ _)⟩

/-- Witness for C1: with one pending commitment under
`commit-c-u-abc`, an instantaneous successful commit confirmation
yields no immediate interaction request. -/
theorem revealDelay_observed_witness :
    ((onTransactionResponse
      ⟨[("commit-c-u-abc",
        ⟨"u", "c", "abc.eth", "abc", "0xhash", "0xsecret", "0xowner",
          31557600, 0, none⟩)], [], [], [], []⟩
      "commit-c-u-abc" (some "0xtx") "c" "u").2.all
      (fun e => !(isInteractionRequest e)) = true) :=
  (revealDelay_observed
    ⟨[("commit-c-u-abc",
      ⟨"u", "c", "abc.eth", "abc", "0xhash", "0xsecret", "0xowner",
        31557600, 0, none⟩)], [], [], [], []⟩
    "commit-c-u-abc" "0xtx" "c" "u"
    ⟨"u", "c", "abc.eth", "abc", "0xhash", "0xsecret", "0xowner",
      31557600, 0, none⟩
    (Or.inl (by decide)) (by decide)).1

/-- C3: a reveal/registration confirmation arriving without a
transaction hash (mainnet `register-` or Sepolia `test_register-`)
leaves the bot state — in particular the pending
`RegistrationCommitment` record — completely unchanged and reports
that the commitment is still valid; the record is deleted on a
failed confirmation only in the `commit-`/`testcommit-` branches,
i.e. when the commit transaction itself failed. -/
theorem revealFailure_keepsCommitment (st : BotState) (k ch u : String)
    (c : CommitmentState) :
    (jsStartsWith k "register-" = true →
      mapGet st.pendingCommitments (jsReplaceFirst k "register-" "commit-") =
        some c →
      onTransactionResponse st k none ch u =
        (st, [Effect.sendMessage ch
          ("❌ Registration transaction was not confirmed. " ++
            "The commitment is still valid for 24 hours. " ++
            "You can try again with the same domain.")])) ∧
    (jsStartsWith k "test_register-" = true →
      mapGet st.pendingCommitments
          (jsReplaceFirst k "test_register-" "testcommit-") = some c →
      onTransactionResponse st k none ch u =
        (st, [Effect.sendMessage ch
          ("❌ Registration transaction was not confirmed. " ++
            "The commitment is still valid for 24 hours. " ++
            "You can try again with the same domain.")])) ∧
    (jsStartsWith k "commit-" = true →
      mapGet st.pendingCommitments k = some c →
      (onTransactionResponse st k none ch u).1.pendingCommitments =
        mapDelete st.pendingCommitments k) ∧
    (jsStartsWith k "testcommit-" = true →
      mapGet st.pendingCommitments k = some c →
      (onTransactionResponse st k none ch u).1.pendingCommitments =
        mapDelete st.pendingCommitments k) := by
  refine ⟨?_, ?_, ?_, ?_⟩
  · intro hk hlook
    have h1 : jsStartsWith k "testcommit-" = false :=
      jsStartsWith_false_of_incomp k hk (by decide) (by decide)
    have h2 : jsStartsWith k "test_register-" = false :=
      jsStartsWith_false_of_incomp k hk (by decide) (by decide)
    have h3 : jsStartsWith k "testtransfer-" = false :=
      jsStartsWith_false_of_incomp k hk (by decide) (by decide)
    have h4 : jsStartsWith k "commit-" = false :=
      jsStartsWith_false_of_incomp k hk (by decide) (by decide)
    simp [onTransactionResponse, h1, h2, h3, h4, hk,
      handleRegisterTx, hlook]
  · intro hk hlook
    have h1 : jsStartsWith k "testcommit-" = false :=
      jsStartsWith_false_of_incomp k hk (by decide) (by decide)
    simp [onTransactionResponse, h1, hk, handleTestRegisterTx, hlook]
  · intro hk hlook
    have h1 : jsStartsWith k "testcommit-" = false :=
      jsStartsWith_false_of_incomp k hk (by decide) (by decide)
    have h2 : jsStartsWith k "test_register-" = false :=
      jsStartsWith_false_of_incomp k hk (by decide) (by decide)
    have h3 : jsStartsWith k "testtransfer-" = false :=
      jsStartsWith_false_of_incomp k hk (by decide) (by decide)
    simp [onTransactionResponse, h1, h2, h3, hk, handleCommitTx, hlook]
  · intro hk hlook
    simp [onTransactionResponse, hk, handleTestCommitTx, hlook]

/-- Witness for C3: a failed mainnet reveal confirmation for a present
commitment leaves the state untouched. -/
theorem revealFailure_keepsCommitment_witness :
    onTransactionResponse
      ⟨[("commit-c-u-abc",
        ⟨"u", "c", "abc.eth", "abc", "0xhash", "0xsecret", "0xowner",
          31557600, 0, some "0xtx"⟩)], [], [], [], []⟩
      "register-c-u-abc" none "c" "u" =
      (⟨[("commit-c-u-abc",
        ⟨"u", "c", "abc.eth", "abc", "0xhash", "0xsecret", "0xowner",
          31557600, 0, some "0xtx"⟩)], [], [], [], []⟩,
       [Effect.sendMessage "c"
          ("❌ Registration transaction was not confirmed. " ++
            "The commitment is still valid for 24 hours. " ++
            "You can try again with the same domain.")]) :=
  (revealFailure_keepsCommitment
    ⟨[("commit-c-u-abc",
      ⟨"u", "c", "abc.eth", "abc", "0xhash", "0xsecret", "0xowner",
        31557600, 0, some "0xtx"⟩)], [], [], [], []⟩
    "register-c-u-abc" "c" "u"
    ⟨"u", "c", "abc.eth", "abc", "0xhash", "0xsecret", "0xowner",
      31557600, 0, some "0xtx"⟩).1 (by decide) (by decide)

/-- C4 (amended): an event whose recognized correlation key is
absent from its store never crashes the dispatcher, never touches
any other record (the state is returned unchanged), and produces
exactly one report: for form/selection events (`wallet-select-`,
`test-wallet-pick-`) a user-visible expired-selection message, but
for transaction confirmations (`commit-`, `testcommit-`,
`register-`, `test_register-`, `subdomain-`) only an internal
console error, with no user-visible message. -/
theorem absentKey_noCrash (st : BotState) (k ch u : String)
    (h : Option String) (ext : FormExt) (comps : List FormComponent) :
    (jsStartsWith k "commit-" = true →
      mapGet st.pendingCommitments k = none →
      onTransactionResponse st k h ch u =
        (st, [Effect.consoleError ("No commitment found for ID: " ++ k)])) ∧
    (jsStartsWith k "testcommit-" = true →
      mapGet st.pendingCommitments k = none →
      onTransactionResponse st k h ch u =
        (st, [Effect.consoleError ("No commitment found for ID: " ++ k)])) ∧
    (jsStartsWith k "register-" = true →
      mapGet st.pendingCommitments (jsReplaceFirst k "register-" "commit-") =
        none →
      onTransactionResponse st k h ch u =
        (st, [Effect.consoleError ("No commitment found for ID: " ++
          jsReplaceFirst k "register-" "commit-")])) ∧
    (jsStartsWith k "test_register-" = true →
      mapGet st.pendingCommitments
          (jsReplaceFirst k "test_register-" "testcommit-") = none →
      onTransactionResponse st k h ch u =
        (st, [Effect.consoleError ("No commitment found for ID: " ++
          jsReplaceFirst k "test_register-" "testcommit-")])) ∧
    (jsStartsWith k "subdomain-" = true →
      mapGet st.pendingSubdomainAssignments k = none →
      onTransactionResponse st k h ch u =
        (st, [Effect.consoleError
          ("No subdomain assignment found for ID: " ++ k)])) ∧
    (jsStartsWith k "wallet-select-" = true →
      mapGet st.pendingWalletSelections k = none →
      onFormResponse ext st k comps ch =
        (st, [Effect.sendMessage ch
          "⚠️ Selection expired. Please run /bridge_register again."])) ∧
    (jsStartsWith k "test-wallet-pick-" = true →
      mapGet st.pendingTestSelections k = none →
      onFormResponse ext st k comps ch =
        (st, [Effect.sendMessage ch
          "⚠️ Selection expired. Please run /test_wallet_pick again."])) := by
  refine ⟨?_, ?_, ?_, ?_, ?_, ?_, ?_⟩
  · intro hk hlook
    have h1 : jsStartsWith k "testcommit-" = false :=
      jsStartsWith_false_of_incomp k hk (by decide) (by decide)
    have h2 : jsStartsWith k "test_register-" = false :=
      jsStartsWith_false_of_incomp k hk (by decide) (by decide)
    have h3 : jsStartsWith k "testtransfer-" = false :=
      jsStartsWith_false_of_incomp k hk (by decide) (by decide)
    simp [onTransactionResponse, h1, h2, h3, hk, handleCommitTx, hlook]
  · intro hk hlook
    simp [onTransactionResponse, hk, handleTestCommitTx, hlook]
  · intro hk hlook
    have h1 : jsStartsWith k "testcommit-" = false :=
      jsStartsWith_false_of_incomp k hk (by decide) (by decide)
    have h2 : jsStartsWith k "test_register-" = false :=
      jsStartsWith_false_of_incomp k hk (by decide) (by decide)
    have h3 : jsStartsWith k "testtransfer-" = false :=
      jsStartsWith_false_of_incomp k hk (by decide) (by decide)
    have h4 : jsStartsWith k "commit-" = false :=
      jsStartsWith_false_of_incomp k hk (by decide) (by decide)
    simp [onTransactionResponse, h1, h2, h3, h4, hk, handleRegisterTx, hlook]
  · intro hk hlook
    have h1 : jsStartsWith k "testcommit-" = false :=
      jsStartsWith_false_of_incomp k hk (by decide) (by decide)
    simp [onTransactionResponse, h1, hk, handleTestRegisterTx, hlook]
  · intro hk hlook
    have h1 : jsStartsWith k "testcommit-" = false :=
      jsStartsWith_false_of_incomp k hk (by decide) (by decide)
    have h2 : jsStartsWith k "test_register-" = false :=
      jsStartsWith_false_of_incomp k hk (by decide) (by decide)
    have h3 : jsStartsWith k "testtransfer-" = false :=
      jsStartsWith_false_of_incomp k hk (by decide) (by decide)
    have h4 : jsStartsWith k "commit-" = false :=
      jsStartsWith_false_of_incomp k hk (by decide) (by decide)
    have h5 : jsStartsWith k "register-" = false :=
      jsStartsWith_false_of_incomp k hk (by decide) (by decide)
    simp [onTransactionResponse, h1, h2, h3, h4, h5, hk,
      handleSubdomainTx, hlook]
  · intro hk hlook
    have h1 : jsStartsWith k "test-wallet-pick-" = false :=
      jsStartsWith_false_of_incomp k hk (by decide) (by decide)
    simp [onFormResponse, h1, hk, handleWalletSelect, hlook]
  · intro hk hlook
    simp [onFormResponse, hk, handleTestWalletPick, hlook]

/-- Counterexample for C4 as stated: a `commit-` confirmation whose key
is absent from the store is a recognized-prefix event, yet its handler
emits no user-visible message at all (only a `console.error`), so the
claimed "expired, please retry" message does not exist. -/
theorem absentKey_noCrash_counterexample :
    (onTransactionResponse emptyBotState "commit-c-u-abc" (some "0xtx")
      "c" "u").2.all (fun e => !(isUserMessage e)) = true ∧
    (onTransactionResponse emptyBotState "commit-c-u-abc" (some "0xtx")
      "c" "u").2 ≠ [] := by
  decide

/-- Witness for C4 (amended): a `wallet-select-` response against an
empty store yields exactly the expired-selection message and an
unchanged state. -/
theorem absentKey_noCrash_witness :
    onFormResponse ⟨fun _ => 0, fun _ => 0, "s", fun _ => none, 0⟩
      emptyBotState "wallet-select-c-u-1" [] "c" =
      (emptyBotState, [Effect.sendMessage "c"
        "⚠️ Selection expired. Please run /bridge_register again."]) :=
  (absentKey_noCrash emptyBotState "wallet-select-c-u-1" "c" "u" none
    ⟨fun _ => 0, fun _ => 0, "s", fun _ => none, 0⟩ []).2.2.2.2.2.1
    (by decide) (by decide)

/-- Updating key `kk` and then reading key `k` either reads an
untouched entry or the written value. -/
theorem mapGet_set_cases {α : Type} (m : List (String × α)) (kk k : String)
    (v w : α) (h : mapGet (mapSet m kk v) k = some w) :
    mapGet m k = some w ∨ w = v := by
  by_cases hk : kk = k
  · subst hk
    rw [mapGet_set_self] at h
    right
    exact (Option.some.inj h).symm
  · left
    rw [mapGet_set_ne _ _ _ _ hk] at h
    exact h

/-- C6 (amended): the bridge saga stores each new `BridgeOperation`
with status `pending` (any bridge record present after a form-response
step was either already present or is freshly stored as `pending`),
and the arrival of the bridge transaction confirmation is ignored: a
`bridge-eoa-` key matches no branch of the transaction dispatcher, so
the state — including the stored operation and its status — is
returned unchanged with no effects, and the status never advances to
`submitted`. -/
theorem bridgeConfirmation_ignored (ext : FormExt) (st : BotState)
    (rid : String) (comps : List FormComponent) (ch : String)
    (k : String) (op : BridgeState) (h : Option String) (u : String) :
    (mapGet (onFormResponse ext st rid comps ch).1.pendingBridges k =
        some op →
      mapGet st.pendingBridges k = some op ∨
        op.status = BridgeStatus.pending) ∧
    (jsStartsWith k "bridge-eoa-" = true →
      onTransactionResponse st k h ch u = (st, [])) := by
  constructor
  · intro hget
    unfold onFormResponse at hget
    split at hget
    · unfold handleTestWalletPick at hget
      repeat' split at hget
      all_goals left
      all_goals simpa using hget
    · split at hget
      · unfold handleWalletSelect at hget
        repeat' split at hget
        all_goals
          first
            | (left; simpa using hget)
            | (rcases mapGet_set_cases _ _ _ _ _ hget with hcase | hcase
               · left; exact hcase
               · right; simp [hcase])
            | (simp only [] at hget
               split at hget <;> (left; simpa using hget))
      · left
        exact hget
  · intro hk
    have h1 : jsStartsWith k "testcommit-" = false :=
      jsStartsWith_false_of_incomp k hk (by decide) (by decide)
    have h2 : jsStartsWith k "test_register-" = false :=
      jsStartsWith_false_of_incomp k hk (by decide) (by decide)
    have h3 : jsStartsWith k "testtransfer-" = false :=
      jsStartsWith_false_of_incomp k hk (by decide) (by decide)
    have h4 : jsStartsWith k "commit-" = false :=
      jsStartsWith_false_of_incomp k hk (by decide) (by decide)
    have h5 : jsStartsWith k "register-" = false :=
      jsStartsWith_false_of_incomp k hk (by decide) (by decide)
    have h6 : jsStartsWith k "subdomain-" = false :=
      jsStartsWith_false_of_incomp k hk (by decide) (by decide)
    simp [onTransactionResponse, h1, h2, h3, h4, h5, h6]

/-- Counterexample for C6 as stated: a pending Path B bridge operation
whose confirmation event (with a transaction hash) arrives keeps
status `pending`; it is not advanced to `submitted`. -/
theorem bridgeConfirmation_ignored_counterexample :
    (mapGet (onTransactionResponse
      ⟨[], [("bridge-eoa-c-u-abc",
        ⟨"u", "c", "abc.eth", "abc", 1, 8453, 1, 5, "0xe", 0,
          BridgeStatus.pending⟩)], [], [], []⟩
      "bridge-eoa-c-u-abc" (some "0xtx") "c" "u").1.pendingBridges
      "bridge-eoa-c-u-abc").map BridgeState.status ≠
      some BridgeStatus.submitted := by
  decide

/-- Witness for C6 (amended): the concrete pending bridge operation of
the counterexample state survives its own confirmation unchanged. -/
theorem bridgeConfirmation_ignored_witness :
    onTransactionResponse
      ⟨[], [("bridge-eoa-c-u-abc",
        ⟨"u", "c", "abc.eth", "abc", 1, 8453, 1, 5, "0xe", 0,
          BridgeStatus.pending⟩)], [], [], []⟩
      "bridge-eoa-c-u-abc" (some "0xtx") "c" "u" =
      (⟨[], [("bridge-eoa-c-u-abc",
        ⟨"u", "c", "abc.eth", "abc", 1, 8453, 1, 5, "0xe", 0,
          BridgeStatus.pending⟩)], [], [], []⟩, []) :=
  (bridgeConfirmation_ignored ⟨fun _ => 0, fun _ => 0, "s", fun _ => none, 0⟩
    ⟨[], [("bridge-eoa-c-u-abc",
      ⟨"u", "c", "abc.eth", "abc", 1, 8453, 1, 5, "0xe", 0,
        BridgeStatus.pending⟩)], [], [], []⟩
    "r" [] "c" "bridge-eoa-c-u-abc"
    ⟨"u", "c", "abc.eth", "abc", 1, 8453, 1, 5, "0xe", 0,
      BridgeStatus.pending⟩
    (some "0xtx") "u").2 (by decide)

/-- Updating key `kk` and then reading key `k` either reads an
untouched entry or hits exactly the written key and value. -/
theorem mapGet_set_cases2 {α : Type} (m : List (String × α)) (kk k : String)
    (v w : α) (h : mapGet (mapSet m kk v) k = some w) :
    mapGet m k = some w ∨ (kk = k ∧ w = v) := by
  by_cases hk : kk = k
  · subst hk
    rw [mapGet_set_self] at h
    exact Or.inr ⟨rfl, (Option.some.inj h).symm⟩
  · left
    rw [mapGet_set_ne _ _ _ _ hk] at h
    exact h

/-- A read that succeeds after a deletion also succeeds before it. -/
theorem mapGet_delete_cases {α : Type} (m : List (String × α))
    (kk k : String) (w : α) (h : mapGet (mapDelete m kk) k = some w) :
    mapGet m k = some w := by
  by_cases hk : kk = k
  · subst hk
    rw [mapGet_delete_self] at h
    cases h
  · rw [mapGet_delete_ne _ _ _ hk] at h
    exact h

/-- C2: (i) any commitment record the `/register` command creates gets
its secret and its commitment hash together from one
`RegistrationParams` value (the hash is `makeCommitment` of the very
params carrying the secret); (ii) no transaction-dispatch step ever
changes the secret or the commitment hash of a record that remains
stored — they are never regenerated while the record is pending; (iii)
the reveal continuation scheduled on commit success captures exactly
the secret and hash stored at commit time; and (iv) every reveal
request the continuation emits carries that captured secret in its
`register` calldata, unchanged. -/
theorem commitmentSecret_stable (ext : RegCmdExt) (st st' : BotState)
    (ch u : String) (args : List String) :
    (∀ k c,
      mapGet (onRegisterCommand ext st ch u args).1.pendingCommitments k =
        some c →
      mapGet st.pendingCommitments k = some c ∨
      ∃ p : RegistrationParams, c.secret = p.secret ∧
        ext.makeCommitment p = some c.commitment ∧
        p.label = c.label ∧ p.owner = c.owner ∧ p.duration = c.duration) ∧
    (∀ k h chan usr k' c c',
      mapGet st'.pendingCommitments k' = some c →
      mapGet (onTransactionResponse st' k h chan usr).1.pendingCommitments k' =
        some c' →
      c'.secret = c.secret ∧ c'.commitment = c.commitment) ∧
    (∀ k h chan usr c d t,
      mapGet st'.pendingCommitments k = some c →
      Effect.schedule d t ∈ (onTransactionResponse st' k (some h) chan usr).2 →
      t.commitment.secret = c.secret ∧
        t.commitment.commitment = c.commitment) ∧
    (∀ cost t st₀ chan req rcpt,
      Effect.sendInteractionRequest chan req rcpt ∈
        (runRegisterTimer cost t st₀).2 →
      ∃ res, req.data = TxData.registerCall t.commitment.label
        t.commitment.owner t.commitment.duration t.commitment.secret
        res [] true 0) := by
  refine ⟨?_, ?_, ?_, ?_⟩
  · intro k c hget
    unfold onRegisterCommand at hget
    repeat' (first | split at hget | simp only [] at hget)
    all_goals
      first
        | (left; simpa using hget)
        | (rcases mapGet_set_cases2 _ _ _ _ _ hget with hcase | ⟨hkk, hval⟩
           · left; exact hcase
           · right
             subst hval
             exact ⟨_, rfl, by assumption, rfl, rfl, rfl⟩)
  · intro k h chan usr k' c c' hbefore hafter
    unfold onTransactionResponse at hafter
    simp only [handleTestCommitTx, handleTestRegisterTx, handleTestTransferTx,
      handleCommitTx, handleRegisterTx, handleSubdomainTx] at hafter
    repeat' (first | split at hafter | simp only [] at hafter)
    all_goals
      first
        | (rw [hbefore] at hafter
           obtain rfl := Option.some.inj hafter
           exact ⟨rfl, rfl⟩)
        | (have hdel := mapGet_delete_cases _ _ _ _ hafter
           rw [hbefore] at hdel
           obtain rfl := Option.some.inj hdel
           exact ⟨rfl, rfl⟩)
        | (rcases mapGet_set_cases2 _ _ _ _ _ hafter with hcase | ⟨hkk, hval⟩
           · rw [hbefore] at hcase
             obtain rfl := Option.some.inj hcase
             exact ⟨rfl, rfl⟩
           · subst hkk
             subst hval
             simp_all)
  · intro k h chan usr c d t hc hmem
    unfold onTransactionResponse at hmem
    simp only [handleTestCommitTx, handleTestRegisterTx, handleTestTransferTx,
      handleCommitTx, handleRegisterTx, handleSubdomainTx] at hmem
    repeat' (first | split at hmem | simp only [] at hmem)
    all_goals simp at hmem
    all_goals obtain ⟨hd, ht⟩ := hmem
    all_goals subst ht
    all_goals simp_all
  · intro cost t st₀ chan req rcpt hmem
    unfold runRegisterTimer at hmem
    repeat' (first | split at hmem | simp only [] at hmem)
    all_goals simp at hmem
    all_goals obtain ⟨-, hreq, -⟩ := hmem
    all_goals subst hreq
    all_goals exact ⟨_, rfl⟩

/-- Witness for C2: for a concrete pending commitment, the successful
commit confirmation preserves both the secret and the commitment hash
of the stored record. -/
theorem commitmentSecret_stable_witness :
    (⟨"u", "c", "abc.eth", "abc", "0xhash", "0xsecret", "0xowner",
      31557600, 0, some "0xtx"⟩ : CommitmentState).secret =
      (⟨"u", "c", "abc.eth", "abc", "0xhash", "0xsecret", "0xowner",
        31557600, 0, none⟩ : CommitmentState).secret ∧
    (⟨"u", "c", "abc.eth", "abc", "0xhash", "0xsecret", "0xowner",
      31557600, 0, some "0xtx"⟩ : CommitmentState).commitment =
      (⟨"u", "c", "abc.eth", "abc", "0xhash", "0xsecret", "0xowner",
        31557600, 0, none⟩ : CommitmentState).commitment :=
  (commitmentSecret_stable
    ⟨fun s => ⟨s, true, ""⟩, fun _ => none, fun _ _ => none, none, "s",
      fun _ => none, 0⟩
    emptyBotState
    ⟨[("commit-c-u-abc",
      ⟨"u", "c", "abc.eth", "abc", "0xhash", "0xsecret", "0xowner",
        31557600, 0, none⟩)], [], [], [], []⟩
    "c" "u" []).2.1 "commit-c-u-abc" (some "0xtx") "c" "u" "commit-c-u-abc"
    ⟨"u", "c", "abc.eth", "abc", "0xhash", "0xsecret", "0xowner",
      31557600, 0, none⟩
    ⟨"u", "c", "abc.eth", "abc", "0xhash", "0xsecret", "0xowner",
      31557600, 0, some "0xtx"⟩
    (by decide) (by decide)
